import Mathlib

/-!
Verification of the Mayhem fault-injection orchestration engine.

Shallow embedding of the core of the repository:
- `src/utils/security.py` — `validate_chaos_input`
- `src/orchestrator/chaos_injector.py` — the `/inject` handler, the stress
  workers (`cpu_stress`, `mem_stress`, `disk_stress`, the delay simulations),
  the `/scenarios` handler, and the experiment status updates
- `src/ai_models/nlp_log_analysis.py` — `predict_failure_likelihood` and the
  per-resource risk assessors

Pure functions of the source become Lean functions; the stateful experiment
record becomes an explicit `Experiment` structure with the status updates the
source performs modelled as functions on it; fallible I/O (file writes and
removals, the database commit) is modelled by explicit outcome parameters.
-/

namespace Mayhem

/-! ## Experiment records (`src/models/database.py`, class `ChaosExperiment`) -/

/-- Lifecycle status of a chaos experiment.  The SQLAlchemy column default is
`'running'`; the only other values the code ever assigns are `'completed'`
and `'failed'`. -/
inductive Status where
  | running
  | completed
  | failed
deriving DecidableEq, Repr

/-- The fields of `ChaosExperiment` the orchestration logic reads or writes.
`error_message` and `result` are nullable columns, hence `Option`. -/
structure Experiment where
  scenario : String
  duration : Int
  intensity : String
  status : Status
  error_message : Option String
  result : Option String
deriving DecidableEq, Repr

/-- Status update performed by the `/inject` handler right after dispatching
the worker thread (`chaos_injector.py` lines 403-409):
`if experiment and not experiment.error_message:` set `status = 'completed'`
and record the result summary.  The guard tests only `error_message`, not the
current status, and it is a Python truthiness test: it passes when
`error_message` is `None` and also when it is the empty string (which a
worker can record, since `str(e)` of an exception can be `''`). -/
def completeUpdate (res : String) (e : Experiment) : Experiment :=
  if e.error_message = none ∨ e.error_message = some "" then
    { e with status := Status.completed, result := some res }
  else e

/-- Status update performed by every worker's exception handler
(e.g. `chaos_injector.py` lines 184-188): set `error_message = str(e)` and
`status = 'failed'`, unconditionally — there is no check of the current
status. -/
def failUpdate (msg : String) (e : Experiment) : Experiment :=
  { e with error_message := some msg, status := Status.failed }

/-! ## Input validation (`src/utils/security.py`, `validate_chaos_input`) -/

/-- The closed list of scenario ids accepted by `validate_chaos_input`
(`security.py` lines 102-108). -/
def valid_scenarios : List String :=
  ["cpu_spike", "memory_leak", "disk_fill", "network_latency",
   "network_partition", "process_kill", "container_restart",
   "database_slowdown", "api_timeout", "ssl_certificate_expired",
   "dns_failure", "storage_corruption", "kubernetes_pod_eviction",
   "service_discovery_failure", "load_balancer_failure"]

/-- A request body for `/inject`.  Each field is `none` when the JSON key is
absent (the source reads them with `data.get(key, default)`).  Durations are
modelled as JSON integers. -/
structure RequestData where
  scenario : Option String
  duration : Option Int
  intensity : Option String
deriving DecidableEq, Repr

/-- `validate_chaos_input(data)` (`security.py` lines 92-125): missing keys
default to `''` / `0` / `''`; the scenario must be in the closed list, the
duration must lie in `[1, 300]`, and the intensity must be one of
low/medium/high.  Returns `(is_valid, message)`. -/
def validate_chaos_input (d : RequestData) : Bool × String :=
  let scenario := d.scenario.getD ""
  let duration := d.duration.getD 0
  let intensity := d.intensity.getD ""
  if scenario ∉ valid_scenarios then
    (false, "Invalid scenario. Must be one of: " ++ String.intercalate ", " valid_scenarios)
  else if duration < 1 ∨ duration > 300 then
    (false, "Duration must be between 1 and 300 seconds")
  else if intensity ∉ ["low", "medium", "high"] then
    (false, "Intensity must be 'low', 'medium', or 'high'")
  else
    (true, "Valid input")

/-! ## The `/inject` handler (`src/orchestrator/chaos_injector.py` lines 107-432) -/

/-- The `simulation_scenarios` display-name table of the generic branch
(`chaos_injector.py` lines 371-380). -/
def simulation_scenarios : List (String × String) :=
  [("network_partition", "Network partition simulation"),
   ("container_restart", "Container restart simulation"),
   ("ssl_certificate_expired", "SSL certificate expiry simulation"),
   ("dns_failure", "DNS resolution failure simulation"),
   ("storage_corruption", "Storage corruption simulation"),
   ("kubernetes_pod_eviction", "Kubernetes pod eviction simulation"),
   ("service_discovery_failure", "Service discovery failure simulation"),
   ("load_balancer_failure", "Load balancer failure simulation")]

/-- The acknowledgement string built in each scenario branch of `inject`
(`chaos_injector.py` lines 193, 226, 282, 305, 324, 345, 367, 401). -/
def chaos_result (scenario intensity : String) (duration : Int) : String :=
  if scenario = "cpu_spike" then
    "CPU spike (" ++ intensity ++ ") injected for " ++ toString duration ++ "s"
  else if scenario = "memory_leak" then
    "Memory leak (" ++ intensity ++ ") injected for " ++ toString duration ++ "s"
  else if scenario = "disk_fill" then
    "Disk fill (" ++ intensity ++ ") injected for " ++ toString duration ++ "s"
  else if scenario = "network_latency" then
    "Network latency (" ++ intensity ++ ") injected for " ++ toString duration ++ "s"
  else if scenario = "api_timeout" then
    "API timeout (" ++ intensity ++ ") simulated for " ++ toString duration ++ "s"
  else if scenario = "process_kill" then
    "Process instability (" ++ intensity ++ ") simulated for " ++ toString duration ++ "s"
  else if scenario = "database_slowdown" then
    "Database slowdown (" ++ intensity ++ ") injected for " ++ toString duration ++ "s"
  else
    ((simulation_scenarios.lookup scenario).getD scenario)
      ++ " (" ++ intensity ++ ") executed for " ++ toString duration ++ "s"

/-- The HTTP-visible response of the `/inject` handler: a 400-class
validation error, or the 200 acceptance payload `{result, scenario}`. -/
inductive InjectResponse where
  | validationError (msg : String)
  | ack (result : String) (scenario : String)
deriving DecidableEq, Repr

/-- Observable outcome of one `/inject` call: the response, whether a
`ChaosExperiment` row was created, and which scenario workload (if any) was
dispatched to a worker thread. -/
structure InjectOutcome where
  response : InjectResponse
  recordCreated : Bool
  dispatched : Option String
deriving DecidableEq, Repr

/-- The synchronous control flow of the `inject` handler
(`chaos_injector.py` lines 110-413): validate (rejecting with 400 before any
record is created), read the fields with their fallback defaults, re-check
the duration bounds and the intensity, then create the experiment record
(`ledgerOk = false` models the `db.session.add/commit` raising, which is
caught and logged — lines 154-156 — without aborting), dispatch the matching
worker thread and return the acknowledgement. -/
def inject (d : RequestData) (ledgerOk : Bool) : InjectOutcome :=
  let v := validate_chaos_input d
  if v.1 = false then
    { response := InjectResponse.validationError v.2,
      recordCreated := false, dispatched := none }
  else
    let scenario := d.scenario.getD "cpu_spike"
    let duration := d.duration.getD 10
    let intensity := d.intensity.getD "medium"
    if duration < 1 ∨ duration > 300 then
      { response := InjectResponse.validationError "Duration must be between 1 and 300 seconds",
        recordCreated := false, dispatched := none }
    else if intensity ∉ ["low", "medium", "high"] then
      { response := InjectResponse.validationError "Intensity must be low, medium, or high",
        recordCreated := false, dispatched := none }
    else
      { response := InjectResponse.ack (chaos_result scenario intensity duration) scenario,
        recordCreated := ledgerOk,
        dispatched := some scenario }

/-! ## Worker threads and their exception handling
(`src/orchestrator/chaos_injector.py` lines 169-401)

Each scenario branch of `inject` defines a worker function and runs it on a
detached thread.  Every worker wraps its whole body in `try/except`; the
`except` clauses cover every error class the body can raise (Python's
`except Exception` at minimum), so we model the raisable errors as a closed
type and the worker as a function of its body's outcome. -/

/-- The error classes the worker bodies can raise and that the source
distinguishes in its `except` clauses (`MemoryError`, `PermissionError`,
`OSError`, any other `Exception`), each carrying its `str(e)` message. -/
inductive PyError where
  | memoryError (msg : String)
  | permissionError (msg : String)
  | osError (msg : String)
  | other (msg : String)
deriving DecidableEq, Repr

/-- `str(e)` of an error. -/
def PyError.msg : PyError → String
  | .memoryError m => m
  | .permissionError m => m
  | .osError m => m
  | .other m => m

/-- Apply the worker failure handler to the experiment reference the worker
holds, when it holds one (`if experiment:` in the source; the reference is
`None` when record creation failed). -/
def applyFail (m : String) : Option Experiment → Option Experiment
  | some e => some (failUpdate m e)
  | none => none

/-- What a worker's top-level function does once its body has finished:
the updated experiment reference, and the error it let escape to the thread
(always `none` in the source, since the handlers catch everything). -/
structure WorkerOutcome where
  experiment : Option Experiment
  propagated : Option PyError
deriving DecidableEq, Repr

/-- `cpu_stress` (lines 169-191): the body spins busy-loop threads; a single
`except Exception` clause records `str(e)` and marks the experiment failed. -/
def cpu_stress (body : Except PyError Unit) (exp : Option Experiment) : WorkerOutcome :=
  match body with
  | .ok _ => { experiment := exp, propagated := none }
  | .error e => { experiment := applyFail e.msg exp, propagated := none }

/-- `mem_stress` (lines 196-224): `except MemoryError` records
`"Hit memory limits: " + str(e)`, `except Exception` records `str(e)`. -/
def mem_stress (body : Except PyError Unit) (exp : Option Experiment) : WorkerOutcome :=
  match body with
  | .ok _ => { experiment := exp, propagated := none }
  | .error (PyError.memoryError m) =>
      { experiment := applyFail ("Hit memory limits: " ++ m) exp, propagated := none }
  | .error e => { experiment := applyFail e.msg exp, propagated := none }

/-- `network_delay` (lines 286-303): sleep loop, `except Exception`. -/
def network_delay (body : Except PyError Unit) (exp : Option Experiment) : WorkerOutcome :=
  match body with
  | .ok _ => { experiment := exp, propagated := none }
  | .error e => { experiment := applyFail e.msg exp, propagated := none }

/-- `timeout_simulation` (lines 308-322): sleep, `except Exception`. -/
def timeout_simulation (body : Except PyError Unit) (exp : Option Experiment) : WorkerOutcome :=
  match body with
  | .ok _ => { experiment := exp, propagated := none }
  | .error e => { experiment := applyFail e.msg exp, propagated := none }

/-- `process_chaos` (lines 328-342): sleep, `except Exception`. -/
def process_chaos (body : Except PyError Unit) (exp : Option Experiment) : WorkerOutcome :=
  match body with
  | .ok _ => { experiment := exp, propagated := none }
  | .error e => { experiment := applyFail e.msg exp, propagated := none }

/-- `db_slowdown` (lines 348-364): sleep loop, `except Exception`. -/
def db_slowdown (body : Except PyError Unit) (exp : Option Experiment) : WorkerOutcome :=
  match body with
  | .ok _ => { experiment := exp, propagated := none }
  | .error e => { experiment := applyFail e.msg exp, propagated := none }

/-- `generic_chaos` (lines 384-398): sleep, `except Exception`. -/
def generic_chaos (body : Except PyError Unit) (exp : Option Experiment) : WorkerOutcome :=
  match body with
  | .ok _ => { experiment := exp, propagated := none }
  | .error e => { experiment := applyFail e.msg exp, propagated := none }

/-- The error-message formatting of `disk_stress`'s `except` clauses
(lines 253-279): `except PermissionError` → `"Permission denied: " + str(e)`,
`except OSError` → `"OS error: " + str(e)` (tried in this order, matching the
source), `except Exception` → `str(e)`. -/
def disk_error_message : PyError → String
  | .permissionError m => "Permission denied: " ++ m
  | .osError m => "OS error: " ++ m
  | e => e.msg

/-- Outcome of one file-removal attempt in `disk_stress`'s cleanup loop:
success, `FileNotFoundError`, or any other exception. -/
inductive RemoveOutcome where
  | ok
  | notFound
  | otherError
deriving DecidableEq, Repr

/-- The creation loop of `disk_stress` (lines 238-242), starting at index
`i` with `n` files left to create.  `w j` is the outcome of the 1 MB write
into file `j` (`some e` = the write raises `e`).  Returns the files present
on disk, the `temp_files` list, and the error that escaped the loop, if any.
When the write into file `j` raises, file `j` was already created by `open`
but is not appended to `temp_files`, and the loop is abandoned. -/
def disk_create_from (w : Nat → Option PyError) : Nat → Nat → List Nat × List Nat × Option PyError
  | _, 0 => ([], [], none)
  | i, n + 1 =>
    match w i with
    | some e => ([i], [], some e)
    | none =>
      let r := disk_create_from w (i + 1) n
      (i :: r.1, i :: r.2.1, r.2.2)

/-- The cleanup loop of `disk_stress` (lines 245-251): for each recorded temp
file attempt `os.remove`; `FileNotFoundError` is passed over (the file is
already gone), any other exception is logged and the loop continues with the
remaining files.  Returns the files still on disk afterwards — exactly those
whose removal raised a non-missing error. -/
def disk_cleanup (remove : Nat → RemoveOutcome) : List Nat → List Nat
  | [] => []
  | f :: rest =>
    match remove f with
    | RemoveOutcome.ok => disk_cleanup remove rest
    | RemoveOutcome.notFound => disk_cleanup remove rest
    | RemoveOutcome.otherError => f :: disk_cleanup remove rest

/-- Observable result of one `disk_stress` run: the temp files on disk when
the function returns, the experiment reference after any status update, the
error propagated out of the worker (none), and whether the body raised. -/
structure DiskRun where
  onDisk : List Nat
  experiment : Option Experiment
  propagated : Option PyError
  failed : Bool
deriving DecidableEq, Repr

/-- `disk_stress` (lines 229-281): create `size_mb` 1 MB temp files, sleep,
then delete the recorded temp files.  The creation loop and the cleanup loop
live in the same `try` block, so an error escaping the creation loop jumps
to the `except` clauses — which mark the experiment failed but perform no
cleanup — while errors inside the cleanup loop are caught per-file. -/
def disk_stress (size_mb : Nat) (w : Nat → Option PyError)
    (remove : Nat → RemoveOutcome) (exp : Option Experiment) : DiskRun :=
  let r := disk_create_from w 0 size_mb
  match r.2.2 with
  | some e =>
      { onDisk := r.1, experiment := applyFail (disk_error_message e) exp,
        propagated := none, failed := true }
  | none =>
      { onDisk := disk_cleanup remove r.2.1, experiment := exp,
        propagated := none, failed := false }

/-! ## The `/scenarios` endpoint (`chaos_injector.py` lines 434-459) -/

/-- The literal `available` list of the `scenarios()` handler
(lines 439-455). -/
def available_scenarios : List String :=
  ["cpu_spike", "memory_leak", "disk_fill", "network_latency",
   "network_partition", "process_kill", "container_restart",
   "database_slowdown", "api_timeout", "ssl_certificate_expired",
   "dns_failure", "storage_corruption", "kubernetes_pod_eviction",
   "service_discovery_failure", "load_balancer_failure"]

/-- The `scenarios()` handler: it reads no request data and no mutable
state, and returns the literal list.  The parameter stands for the incoming
request, which the body ignores. -/
def scenarios_endpoint (_request : Unit) : List String :=
  available_scenarios

/-! ## The RiskAssessor
(`src/ai_models/nlp_log_analysis.py`, `predict_failure_likelihood` and the
`_assess_*_risk` helpers, lines 208-258 and 452-489).  Python floats are
embedded as rationals; all the constants involved are exact decimals. -/

/-- `_assess_cpu_risk` (lines 452-463). -/
def assess_cpu_risk (cpu_percent : ℚ) : ℚ :=
  if cpu_percent > 90 then 9/10
  else if cpu_percent > 80 then 7/10
  else if cpu_percent > 70 then 5/10
  else if cpu_percent > 60 then 3/10
  else 1/10

/-- `_assess_memory_risk` (lines 465-476). -/
def assess_memory_risk (memory_percent : ℚ) : ℚ :=
  if memory_percent > 95 then 95/100
  else if memory_percent > 85 then 8/10
  else if memory_percent > 75 then 6/10
  else if memory_percent > 65 then 4/10
  else 1/10

/-- `_assess_disk_risk` (lines 478-489). -/
def assess_disk_risk (disk_percent : ℚ) : ℚ :=
  if disk_percent > 95 then 9/10
  else if disk_percent > 90 then 7/10
  else if disk_percent > 80 then 5/10
  else if disk_percent > 70 then 3/10
  else 1/10

/-- The metrics dictionary read by `predict_failure_likelihood` via
`current_metrics.get(key, 0)`; the fields hold the defaulted values. -/
structure Metrics where
  cpu_percent : ℚ
  memory_percent : ℚ
  disk_percent : ℚ
deriving DecidableEq, Repr

/-- The prediction dictionary built by `predict_failure_likelihood`:
`overall_risk`, `risk_score`, the `specific_risks` entries
(`cpu_failure`, `memory_failure`, `disk_failure`) and
`recommended_preventive_chaos`. -/
structure Prediction where
  overall_risk : String
  risk_score : ℚ
  cpu_failure : ℚ
  memory_failure : ℚ
  disk_failure : ℚ
  recommended_preventive_chaos : List String
deriving DecidableEq, Repr

/-- `predict_failure_likelihood` (lines 208-258): assess the three resources,
take `max(risks.values())` as the overall score, label it
(`>0.7` high, `>0.4` medium, else low), and append one preventive scenario
per resource whose risk exceeds 0.5, in the order cpu, memory, disk. -/
def predict_failure_likelihood (m : Metrics) : Prediction :=
  let cpu_risk := assess_cpu_risk m.cpu_percent
  let memory_risk := assess_memory_risk m.memory_percent
  let disk_risk := assess_disk_risk m.disk_percent
  let overall_risk_score := max (max cpu_risk memory_risk) disk_risk
  { overall_risk :=
      if overall_risk_score > 7/10 then "high"
      else if overall_risk_score > 4/10 then "medium"
      else "low",
    risk_score := overall_risk_score,
    cpu_failure := cpu_risk,
    memory_failure := memory_risk,
    disk_failure := disk_risk,
    recommended_preventive_chaos :=
      (if cpu_risk > 1/2 then ["cpu_spike"] else []) ++
      (if memory_risk > 1/2 then ["memory_leak"] else []) ++
      (if disk_risk > 1/2 then ["disk_fill"] else []) }

/-- The list of worker functions `inject` can dispatch that share the plain
`except Exception` handler shape (the disk worker, modelled with its file
behaviour by `disk_stress`, is treated separately). -/
def dispatched_workers : List (Except PyError Unit → Option Experiment → WorkerOutcome) :=
  [cpu_stress, mem_stress, network_delay, timeout_simulation,
   process_chaos, db_slowdown, generic_chaos]

/-- A freshly created experiment record, as the `inject` handler builds it
(status defaults to `'running'`, no error message, no result). -/
def exp₀ : Experiment :=
  { scenario := "cpu_spike", duration := 5, intensity := "low",
    status := Status.running, error_message := none, result := none }

/-!
# Theorems
-/

/-! ## Characterisation of validation -/

/-- `validate_chaos_input` succeeds exactly when the (defaulted) scenario is
registered, the duration lies in `[1, 300]` and the intensity is one of the
three levels. -/
lemma validate_fst_iff (d : RequestData) :
    (validate_chaos_input d).1 = true ↔
      (d.scenario.getD "") ∈ valid_scenarios ∧
      1 ≤ d.duration.getD 0 ∧ d.duration.getD 0 ≤ 300 ∧
      (d.intensity.getD "") ∈ (["low", "medium", "high"] : List String) := by
  simp only [validate_chaos_input]
  split_ifs with h1 h2 h3 <;> simp_all
  all_goals omega

/-- `validate_chaos_input` fails whenever any of the three checks fails. -/
lemma validate_fst_false (d : RequestData)
    (h : d.duration.getD 0 < 1 ∨ 300 < d.duration.getD 0 ∨
         (d.intensity.getD "") ∉ (["low", "medium", "high"] : List String) ∨
         (d.scenario.getD "") ∉ valid_scenarios) :
    (validate_chaos_input d).1 = false := by
  rcases Bool.eq_false_or_eq_true (validate_chaos_input d).1 with ht | hf
  · rcases (validate_fst_iff d).1 ht with ⟨hs, hd1, hd2, hi⟩
    rcases h with h | h | h | h
    · omega
    · omega
    · exact absurd hi h
    · exact absurd hs h
  · exact hf

/-! ## C1 — terminal status transitions -/

/-- C1, counterexample: the claim "a terminal status is never reversed, and a
Complete/Fail attempt on an already-terminal experiment is a no-op" is false.
Starting from a freshly created (running) experiment, the handler's
complete-update makes it `completed` (terminal), yet the worker's fail-update
applied afterwards — exactly what happens when the dispatched worker fails
after the request thread already marked the experiment completed — turns the
status into `failed`: the terminal status is reversed and `Fail` on a
terminal experiment is not a no-op. -/
theorem complete_then_fail_reverses_terminal_status :
    (completeUpdate "done" exp₀).status = Status.completed ∧
    (failUpdate "boom" (completeUpdate "done" exp₀)).status = Status.failed ∧
    failUpdate "boom" (completeUpdate "done" exp₀) ≠ completeUpdate "done" exp₀ := by
  decide

/-- C1, amended: the fail-update always sets the status to `failed`,
whatever the current status (it is not guarded against terminal states).
The only idempotency in the code is on the complete side, and it is a Python
truthiness guard on `error_message`: the complete-update is a no-op exactly
when a non-empty error message is recorded — so Complete after a Fail that
recorded a non-empty `str(e)` is a no-op, but when the recorded message is
the empty string (`str(e)` can be `''`) the complete-update overwrites the
terminal `failed` status back to `completed`. -/
theorem terminal_transition_guards (e : Experiment) (res msg : String) :
    (failUpdate msg e).status = Status.failed ∧
    (∀ m, e.error_message = some m → m ≠ "" → completeUpdate res e = e) ∧
    (msg ≠ "" → completeUpdate res (failUpdate msg e) = failUpdate msg e) ∧
    (completeUpdate res (failUpdate "" e)).status = Status.completed := by
  refine ⟨rfl, fun m hm hne => ?_, fun hne => ?_, ?_⟩
  · simp [completeUpdate, hm, hne]
  · simp [completeUpdate, failUpdate, hne]
  · simp [completeUpdate, failUpdate]

/-- C1, witness for `terminal_transition_guards` at concrete inputs:
Fail always lands on `failed`; Complete after a Fail with the non-empty
message `"boom"` is a no-op, as is Complete on a record carrying the
non-empty message `"x"`; Complete after a Fail with an empty message
reverses the status to `completed`. -/
theorem terminal_transition_guards_witness :
    (failUpdate "boom" exp₀).status = Status.failed ∧
    completeUpdate "done" (failUpdate "boom" exp₀) = failUpdate "boom" exp₀ ∧
    completeUpdate "done" { exp₀ with error_message := some "x" } =
      { exp₀ with error_message := some "x" } ∧
    (completeUpdate "done" (failUpdate "" exp₀)).status = Status.completed :=
  ⟨(terminal_transition_guards exp₀ "done" "boom").1,
   (terminal_transition_guards exp₀ "done" "boom").2.2.1 (by decide),
   (terminal_transition_guards { exp₀ with error_message := some "x" } "done" "boom").2.1
     "x" rfl (by decide),
   (terminal_transition_guards exp₀ "done" "boom").2.2.2⟩

/-! ## C3 — validation rejects bad input before any record is created -/

/-- C3: for every request whose (defaulted) duration is outside `[1, 300]`,
or whose intensity is not low/medium/high, or whose scenario is not in the
registry's closed list, `inject` returns a synchronous validation error, and
neither a ledger record nor a workload dispatch happens. -/
theorem invalid_input_rejected_without_record (d : RequestData) (ledgerOk : Bool)
    (h : d.duration.getD 0 < 1 ∨ 300 < d.duration.getD 0 ∨
         (d.intensity.getD "") ∉ (["low", "medium", "high"] : List String) ∨
         (d.scenario.getD "") ∉ valid_scenarios) :
    (∃ msg, (inject d ledgerOk).response = InjectResponse.validationError msg) ∧
    (inject d ledgerOk).recordCreated = false ∧
    (inject d ledgerOk).dispatched = none := by
  have hv := validate_fst_false d h
  exact ⟨⟨(validate_chaos_input d).2, by simp [inject, hv]⟩,
    by simp [inject, hv], by simp [inject, hv]⟩

/-- C3, witness: a duration of 0 is rejected and creates no record. -/
theorem invalid_input_rejected_without_record_witness :
    (inject { scenario := some "cpu_spike", duration := some 0, intensity := some "low" }
        true).recordCreated = false :=
  (invalid_input_rejected_without_record
    { scenario := some "cpu_spike", duration := some 0, intensity := some "low" }
    true (Or.inl (by decide))).2.1

/-! ## C5 — ledger-creation failure does not abort the injection -/

/-- C5: for every request that passes validation, running `inject` with the
experiment-record creation failing (`ledgerOk = false`, the caught
`db.session` exception) still dispatches the workload and still returns the
success acknowledgement `{result, scenario}`. -/
theorem ledger_failure_does_not_abort_injection (d : RequestData)
    (h : (validate_chaos_input d).1 = true) :
    (inject d false).recordCreated = false ∧
    (inject d false).dispatched = some (d.scenario.getD "cpu_spike") ∧
    (inject d false).response =
      InjectResponse.ack
        (chaos_result (d.scenario.getD "cpu_spike") (d.intensity.getD "medium")
          (d.duration.getD 10))
        (d.scenario.getD "cpu_spike") := by
  rcases (validate_fst_iff d).1 h with ⟨hs, hd1, hd2, hi⟩
  obtain ⟨v, hv⟩ : ∃ v, d.duration = some v := by
    cases hdu : d.duration with
    | none => rw [hdu] at hd1; simp at hd1
    | some v => exact ⟨v, rfl⟩
  obtain ⟨s, hsi⟩ : ∃ s, d.intensity = some s := by
    cases hin : d.intensity with
    | none => rw [hin] at hi; exact absurd hi (by decide)
    | some s => exact ⟨s, rfl⟩
  rw [hv] at hd1 hd2
  simp only [Option.getD_some] at hd1 hd2
  rw [hsi] at hi
  simp only [Option.getD_some] at hi
  have hvfalse : ¬((validate_chaos_input d).1 = false) := by simp [h]
  have hvb : ¬((v : ℤ) < 1 ∨ v > 300) := by omega
  have hsb : ¬(s ∉ (["low", "medium", "high"] : List String)) := not_not_intro hi
  simp only [inject, hv, hsi, Option.getD_some]
  rw [if_neg hvfalse, if_neg hvb, if_neg hsb]
  exact ⟨rfl, rfl, rfl⟩

/-- C5, witness: with a failing ledger, a valid cpu_spike request is still
dispatched and acknowledged. -/
theorem ledger_failure_does_not_abort_injection_witness :
    (inject { scenario := some "cpu_spike", duration := some 2, intensity := some "low" }
        false).dispatched = some "cpu_spike" :=
  (ledger_failure_does_not_abort_injection
    { scenario := some "cpu_spike", duration := some 2, intensity := some "low" }
    (by decide)).2.1

/-! ## C9 — the `/scenarios` endpoint -/

/-- C9: every call to the `/scenarios` handler returns the same list in the
same order, the list coincides with the validator's closed registry of
scenario ids, and it has at least 15 entries. -/
theorem scenarios_endpoint_stable_and_complete :
    (∀ u v : Unit, scenarios_endpoint u = scenarios_endpoint v) ∧
    (∀ u : Unit, scenarios_endpoint u = valid_scenarios) ∧
    15 ≤ available_scenarios.length := by
  exact ⟨fun _ _ => rfl, fun _ => rfl, by decide⟩

/-! ## C10 — a missing scenario key is rejected; the cpu_spike fallback is dead -/

/-- C10: when the request body lacks the `scenario` key, validation sees the
empty string, which is not a registered scenario, so the request is rejected
with a validation error and no record is created; conversely whenever
validation passes the scenario key is present (and registered), so the
`data.get("scenario", "cpu_spike")` fallback in the handler never supplies
its default. -/
theorem missing_scenario_rejected_fallback_unreachable (d : RequestData) (ledgerOk : Bool) :
    (d.scenario = none →
        (validate_chaos_input d).1 = false ∧
        (∃ msg, (inject d ledgerOk).response = InjectResponse.validationError msg) ∧
        (inject d ledgerOk).recordCreated = false) ∧
    ((validate_chaos_input d).1 = true →
        ∃ s, d.scenario = some s ∧ s ∈ valid_scenarios ∧ d.scenario.getD "cpu_spike" = s) := by
  constructor
  · intro hn
    have hv : (validate_chaos_input d).1 = false := by
      apply validate_fst_false
      rw [hn]
      exact Or.inr (Or.inr (Or.inr (by decide)))
    exact ⟨hv, ⟨(validate_chaos_input d).2, by simp [inject, hv]⟩, by simp [inject, hv]⟩
  · intro ht
    rcases (validate_fst_iff d).1 ht with ⟨hs, -, -, -⟩
    cases hsc : d.scenario with
    | none => rw [hsc] at hs; exact absurd hs (by decide)
    | some s =>
        rw [hsc] at hs
        exact ⟨s, rfl, by simpa using hs, rfl⟩

/-- C10, witness: a body without a scenario key is rejected. -/
theorem missing_scenario_rejected_fallback_unreachable_witness :
    (validate_chaos_input { scenario := none, duration := some 10, intensity := some "low" }).1
      = false :=
  ((missing_scenario_rejected_fallback_unreachable
    { scenario := none, duration := some 10, intensity := some "low" } true).1 rfl).1

/-! ## The RiskAssessor claims -/

/-- The overall risk score is definitionally the max of the three
per-resource assessments. -/
lemma risk_score_def (m : Metrics) :
    (predict_failure_likelihood m).risk_score =
      max (max (assess_cpu_risk m.cpu_percent) (assess_memory_risk m.memory_percent))
        (assess_disk_risk m.disk_percent) := rfl

/-- `assess_cpu_risk` is monotone. -/
lemma assess_cpu_risk_le (x y : ℚ) (h : x ≤ y) :
    assess_cpu_risk x ≤ assess_cpu_risk y := by
  simp only [assess_cpu_risk]
  split_ifs <;> linarith

/-- `assess_memory_risk` is monotone. -/
lemma assess_memory_risk_le (x y : ℚ) (h : x ≤ y) :
    assess_memory_risk x ≤ assess_memory_risk y := by
  simp only [assess_memory_risk]
  split_ifs <;> linarith

/-- `assess_disk_risk` is monotone. -/
lemma assess_disk_risk_le (x y : ℚ) (h : x ≤ y) :
    assess_disk_risk x ≤ assess_disk_risk y := by
  simp only [assess_disk_risk]
  split_ifs <;> linarith

/-- C6: the overall risk score equals the maximum of the three per-resource
risk scores, and the CPU assessment follows the spec's step thresholds
(`>90%→0.9`, `>80%→0.7`, `>70%→0.5`, `>60%→0.3`, else `0.1`). -/
theorem risk_score_is_max_of_resources (m : Metrics) :
    (predict_failure_likelihood m).risk_score =
      max (max (assess_cpu_risk m.cpu_percent) (assess_memory_risk m.memory_percent))
        (assess_disk_risk m.disk_percent) ∧
    (90 < m.cpu_percent → assess_cpu_risk m.cpu_percent = 9/10) ∧
    (80 < m.cpu_percent ∧ m.cpu_percent ≤ 90 → assess_cpu_risk m.cpu_percent = 7/10) ∧
    (70 < m.cpu_percent ∧ m.cpu_percent ≤ 80 → assess_cpu_risk m.cpu_percent = 5/10) ∧
    (60 < m.cpu_percent ∧ m.cpu_percent ≤ 70 → assess_cpu_risk m.cpu_percent = 3/10) ∧
    (m.cpu_percent ≤ 60 → assess_cpu_risk m.cpu_percent = 1/10) := by
  refine ⟨risk_score_def m, fun h => ?_, fun h => ?_, fun h => ?_, fun h => ?_, fun h => ?_⟩
  · simp only [assess_cpu_risk]; split_ifs <;> linarith
  · obtain ⟨ha, hb⟩ := h
    simp only [assess_cpu_risk]; split_ifs <;> linarith
  · obtain ⟨ha, hb⟩ := h
    simp only [assess_cpu_risk]; split_ifs <;> linarith
  · obtain ⟨ha, hb⟩ := h
    simp only [assess_cpu_risk]; split_ifs <;> linarith
  · simp only [assess_cpu_risk]; split_ifs <;> linarith

/-- C6, witness: at `{cpu: 95, memory: 50, disk: 50}` the score is the max of
the per-resource scores, and the CPU score hits the `>90 → 0.9` step. -/
theorem risk_score_is_max_of_resources_witness :
    (predict_failure_likelihood ⟨95, 50, 50⟩).risk_score =
      max (max (assess_cpu_risk 95) (assess_memory_risk 50)) (assess_disk_risk 50) ∧
    assess_cpu_risk 95 = 9/10 :=
  ⟨(risk_score_is_max_of_resources ⟨95, 50, 50⟩).1,
   (risk_score_is_max_of_resources ⟨95, 50, 50⟩).2.1 (by norm_num)⟩

/-- C7: the RiskAssessor is monotonic — if two metrics inputs agree on two
resources and the third utilization is no smaller in the second input, the
overall risk score does not decrease. -/
theorem risk_score_monotone (m m2 : Metrics)
    (h : (m.memory_percent = m2.memory_percent ∧ m.disk_percent = m2.disk_percent ∧
            m.cpu_percent ≤ m2.cpu_percent) ∨
         (m.cpu_percent = m2.cpu_percent ∧ m.disk_percent = m2.disk_percent ∧
            m.memory_percent ≤ m2.memory_percent) ∨
         (m.cpu_percent = m2.cpu_percent ∧ m.memory_percent = m2.memory_percent ∧
            m.disk_percent ≤ m2.disk_percent)) :
    (predict_failure_likelihood m).risk_score ≤ (predict_failure_likelihood m2).risk_score := by
  rw [risk_score_def, risk_score_def]
  rcases h with ⟨h1, h2, h3⟩ | ⟨h1, h2, h3⟩ | ⟨h1, h2, h3⟩
  · exact max_le_max (max_le_max (assess_cpu_risk_le _ _ h3) (le_of_eq (by rw [h1])))
      (le_of_eq (by rw [h2]))
  · exact max_le_max (max_le_max (le_of_eq (by rw [h1])) (assess_memory_risk_le _ _ h3))
      (le_of_eq (by rw [h2]))
  · exact max_le_max (max_le_max (le_of_eq (by rw [h1])) (le_of_eq (by rw [h2])))
      (assess_disk_risk_le _ _ h3)

/-- C7, witness: raising CPU utilization from 50 to 95 with the other
resources fixed does not decrease the overall score. -/
theorem risk_score_monotone_witness :
    (predict_failure_likelihood ⟨50, 50, 50⟩).risk_score ≤
      (predict_failure_likelihood ⟨95, 50, 50⟩).risk_score :=
  risk_score_monotone ⟨50, 50, 50⟩ ⟨95, 50, 50⟩ (Or.inl ⟨rfl, rfl, by norm_num⟩)

/-- C8: the recommended-scenario list contains `cpu_spike` iff the cpu risk
exceeds 0.5, `memory_leak` iff the memory risk exceeds 0.5, `disk_fill` iff
the disk risk exceeds 0.5; it has no duplicates and is a sublist of
`[cpu_spike, memory_leak, disk_fill]`, i.e. always in that order. -/
theorem recommended_scenarios_characterization (m : Metrics) :
    ("cpu_spike" ∈ (predict_failure_likelihood m).recommended_preventive_chaos ↔
        (predict_failure_likelihood m).cpu_failure > 1/2) ∧
    ("memory_leak" ∈ (predict_failure_likelihood m).recommended_preventive_chaos ↔
        (predict_failure_likelihood m).memory_failure > 1/2) ∧
    ("disk_fill" ∈ (predict_failure_likelihood m).recommended_preventive_chaos ↔
        (predict_failure_likelihood m).disk_failure > 1/2) ∧
    (predict_failure_likelihood m).recommended_preventive_chaos.Nodup ∧
    List.Sublist (predict_failure_likelihood m).recommended_preventive_chaos
      ["cpu_spike", "memory_leak", "disk_fill"] := by
  have hrec : (predict_failure_likelihood m).recommended_preventive_chaos =
      (if assess_cpu_risk m.cpu_percent > 1/2 then ["cpu_spike"] else []) ++
      (if assess_memory_risk m.memory_percent > 1/2 then ["memory_leak"] else []) ++
      (if assess_disk_risk m.disk_percent > 1/2 then ["disk_fill"] else []) := rfl
  have hcpu : (predict_failure_likelihood m).cpu_failure = assess_cpu_risk m.cpu_percent := rfl
  have hmem : (predict_failure_likelihood m).memory_failure =
      assess_memory_risk m.memory_percent := rfl
  have hdisk : (predict_failure_likelihood m).disk_failure =
      assess_disk_risk m.disk_percent := rfl
  rw [hrec, hcpu, hmem, hdisk]
  split_ifs with h1 h2 h3 <;>
    refine ⟨?_, ?_, ?_, ?_, ?_⟩ <;>
      first
      | decide
      | simp_all

/-! ## C4 — workers never propagate faults -/

/-- C4: every dispatched worker's top-level function catches every error its
body can raise: nothing is propagated to the thread (hence to the process or
to the original caller, which already received its response), and when the
worker holds an experiment reference the error is converted into the failed
state with an error message.  The disk worker, modelled with its file
behaviour, satisfies the same property. -/
theorem workers_never_propagate
    (wk : Except PyError Unit → Option Experiment → WorkerOutcome)
    (hwk : wk ∈ dispatched_workers) (body : Except PyError Unit) (exp : Option Experiment) :
    ((wk body exp).propagated = none ∧
      ∀ err ex, body = Except.error err → exp = some ex →
        ∃ m, (wk body exp).experiment = some (failUpdate m ex)) ∧
    (∀ n w r, (disk_stress n w r exp).propagated = none ∧
      ((disk_stress n w r exp).failed = true →
        ∀ ex, exp = some ex →
          ∃ m, (disk_stress n w r exp).experiment = some (failUpdate m ex))) := by
  constructor
  · simp only [dispatched_workers, List.mem_cons, List.not_mem_nil, or_false] at hwk
    rcases hwk with h | h | h | h | h | h | h <;> subst h <;>
      refine ⟨?_, ?_⟩ <;>
        first
        | (cases body with
           | ok u => rfl
           | error e => cases e <;> rfl)
        | (rintro err ex rfl rfl
           cases err <;> exact ⟨_, rfl⟩)
  · intro n w r
    cases hcr : (disk_create_from w 0 n).2.2 with
    | none =>
        refine ⟨?_, ?_⟩ <;> simp [disk_stress, hcr]
    | some e =>
        refine ⟨by simp [disk_stress, hcr], ?_⟩
        rintro - ex rfl
        exact ⟨disk_error_message e, by simp [disk_stress, hcr, applyFail]⟩

/-- C4, witness: a cpu_stress body that raises is converted into a failed
experiment and propagates nothing. -/
theorem workers_never_propagate_witness :
    (cpu_stress (Except.error (PyError.other "boom")) (some exp₀)).propagated = none ∧
    ∃ m, (cpu_stress (Except.error (PyError.other "boom")) (some exp₀)).experiment =
      some (failUpdate m exp₀) :=
  ⟨((workers_never_propagate cpu_stress (by simp [dispatched_workers])
      (Except.error (PyError.other "boom")) (some exp₀)).1).1,
   ((workers_never_propagate cpu_stress (by simp [dispatched_workers])
      (Except.error (PyError.other "boom")) (some exp₀)).1).2
      (PyError.other "boom") exp₀ rfl rfl⟩

/-! ## C2 — disk_fill temp-file cleanup -/

/-- When no write fails, the creation loop creates and records files
`i, i+1, …, i+n-1` and raises nothing. -/
lemma disk_create_from_ok (w : Nat → Option PyError) :
    ∀ n i, (∀ j, i ≤ j → j < i + n → w j = none) →
      disk_create_from w i n = (List.range' i n, List.range' i n, none) := by
  intro n
  induction n with
  | zero => intro i h; rfl
  | succ n ih =>
    intro i h
    have hw : w i = none := h i (Nat.le_refl i) (by omega)
    have hr := ih (i + 1) (fun j hj1 hj2 => h j (by omega) (by omega))
    simp only [disk_create_from, hw, hr, List.range'_succ]

/-- When the write into the `k`-th file (counting from `i`) raises `e` and
all earlier writes succeed, the creation loop leaves files `i, …, i+k` on
disk, records only `i, …, i+k-1` in `temp_files`, and raises `e`. -/
lemma disk_create_from_fail (w : Nat → Option PyError) :
    ∀ k i n e, k < n → w (i + k) = some e → (∀ j, j < k → w (i + j) = none) →
      disk_create_from w i n = (List.range' i (k + 1), List.range' i k, some e) := by
  intro k
  induction k with
  | zero =>
    intro i n e hk hw hnone
    cases n with
    | zero => omega
    | succ n =>
      have hw0 : w i = some e := by simpa using hw
      simp only [disk_create_from, hw0]
      simp [List.range'_succ]
  | succ k ih =>
    intro i n e hk hw hnone
    cases n with
    | zero => omega
    | succ n =>
      have hw0 : w i = none := by simpa using hnone 0 (Nat.succ_pos k)
      have hr := ih (i + 1) n e (by omega)
        (by rw [Nat.add_right_comm]; exact hw)
        (fun j hj => by rw [Nat.add_right_comm]; exact hnone (j + 1) (by omega))
      simp only [disk_create_from, hw0, hr, List.range'_succ]

/-- The cleanup loop visits every recorded file and leaves on disk exactly
those whose removal raised a non-missing error. -/
lemma disk_cleanup_filter (remove : Nat → RemoveOutcome) (l : List Nat) :
    disk_cleanup remove l = l.filter (fun f => remove f == RemoveOutcome.otherError) := by
  induction l with
  | nil => rfl
  | cons f rest ih =>
    simp only [disk_cleanup, List.filter_cons]
    cases remove f <;> simp [ih]

/-- C2, counterexample: the claim "every temp file the worker created is
removed before the workload terminates, even when a write fails mid-loop at
file k<N: files 0..k-1 are still deleted" is false.  With two files to
create, the write into file 1 failing, and removal always succeeding, the
worker exits with files 0 and 1 still on disk: the exception raised inside
the creation loop jumps over the cleanup loop to the `except` clauses, so
file 0 — created and recorded in `temp_files` — is never deleted. -/
theorem disk_write_failure_orphans_files :
    (disk_stress 2
        (fun i => if i = 1 then some (PyError.osError "No space left on device") else none)
        (fun _ => RemoveOutcome.ok) (some exp₀)).onDisk = [0, 1] ∧
    0 ∈ (disk_stress 2
        (fun i => if i = 1 then some (PyError.osError "No space left on device") else none)
        (fun _ => RemoveOutcome.ok) (some exp₀)).onDisk := by
  decide

/-- C2, amended: when every write succeeds, the cleanup loop attempts the
deletion of every created temp file — missing-file errors are skipped and a
permission/OS error on one file does not abort the cleanup of the remaining
files (exactly the files whose removal raised a non-missing error stay on
disk).  When a write fails mid-loop at file `k < N`, however, the cleanup
loop is skipped entirely: files `0..k-1` (and the partially written file
`k`) remain on disk and the experiment is marked failed. -/
theorem disk_cleanup_behavior (n : Nat) (w : Nat → Option PyError)
    (r : Nat → RemoveOutcome) (exp : Option Experiment) :
    ((∀ i, i < n → w i = none) →
        (disk_stress n w r exp).failed = false ∧
        (disk_stress n w r exp).onDisk =
          (List.range n).filter (fun f => r f == RemoveOutcome.otherError)) ∧
    (∀ k e, k < n → w k = some e → (∀ i, i < k → w i = none) →
        (disk_stress n w r exp).failed = true ∧
        (disk_stress n w r exp).onDisk = List.range (k + 1) ∧
        (disk_stress n w r exp).experiment = applyFail (disk_error_message e) exp) := by
  constructor
  · intro h
    have hc := disk_create_from_ok w n 0 (fun j hj1 hj2 => h j (by omega))
    rw [List.range_eq_range']
    simp [disk_stress, hc, disk_cleanup_filter]
  · intro k e hk hw hnone
    have hc := disk_create_from_fail w k 0 n e hk (by simpa using hw)
      (fun j hj => by simpa using hnone j hj)
    rw [List.range_eq_range']
    simp [disk_stress, hc]

/-- C2, witness for `disk_cleanup_behavior`: three successful writes with
the removal of file 1 raising a missing-file error and the others
succeeding — the run does not fail and only removal-error files (none here)
stay on disk; and a run whose second write fails is marked failed. -/
theorem disk_cleanup_behavior_witness :
    ((disk_stress 3 (fun _ => none)
        (fun i => if i = 1 then RemoveOutcome.notFound else RemoveOutcome.ok)
        (some exp₀)).failed = false ∧
      (disk_stress 3 (fun _ => none)
        (fun i => if i = 1 then RemoveOutcome.notFound else RemoveOutcome.ok)
        (some exp₀)).onDisk =
        (List.range 3).filter
          (fun f => (if f = 1 then RemoveOutcome.notFound else RemoveOutcome.ok)
            == RemoveOutcome.otherError)) ∧
    (disk_stress 3 (fun i => if i = 1 then some (PyError.other "boom") else none)
        (fun _ => RemoveOutcome.ok) (some exp₀)).failed = true :=
  ⟨(disk_cleanup_behavior 3 (fun _ => none)
      (fun i => if i = 1 then RemoveOutcome.notFound else RemoveOutcome.ok)
      (some exp₀)).1 (fun i hi => rfl),
   ((disk_cleanup_behavior 3 (fun i => if i = 1 then some (PyError.other "boom") else none)
      (fun _ => RemoveOutcome.ok) (some exp₀)).2 1 (PyError.other "boom")
      (by decide) (by decide) (fun i hi => by simp [Nat.lt_one_iff.mp hi])).1⟩

end Mayhem
